import Mathlib

/-!
Verification of the module resolution and loading subsystem
(`cli/module_loader.rs`): a shallow embedding of `ModuleLoadPreparer`,
`CliModuleLoader` and the data they operate on, together with theorems
settling the specified properties.

External collaborators (the generic `CliGraphResolver`, `CliNodeResolver`,
`Emitter`, `NodeCodeTranslator`, the file system, URL parsing, the
`TypeChecker`, `ModuleGraphBuilder` and the lockfile) are modelled as
function-valued fields of an environment record; the mutable process
state (module graph, `CjsResolutionStore`, `ParsedSourceCache`,
type-checked registry) is threaded explicitly.
-/

set_option autoImplicit false

/-- Decidable equality for `Except`, used to evaluate loader results on
concrete inputs. -/
def Except.decEq {ε α : Type} [DecidableEq ε] [DecidableEq α] :
    (x y : Except ε α) → Decidable (x = y)
  | .error a, .error b =>
    if h : a = b then .isTrue (by rw [h])
    else .isFalse (by intro hc; cases hc; exact h rfl)
  | .error _, .ok _ => .isFalse (by intro hc; cases hc)
  | .ok _, .error _ => .isFalse (by intro hc; cases hc)
  | .ok a, .ok b =>
    if h : a = b then .isTrue (by rw [h])
    else .isFalse (by intro hc; cases hc; exact h rfl)

instance {ε α : Type} [DecidableEq ε] [DecidableEq α] :
    DecidableEq (Except ε α) :=
  Except.decEq

namespace DenoLoader

/-- Media types of source files, mirroring `deno_ast::MediaType`. -/
inductive MediaType where
  | JavaScript
  | Jsx
  | Mjs
  | Cjs
  | TypeScript
  | Mts
  | Cts
  | Dts
  | Dmts
  | Dcts
  | Tsx
  | Json
  | Wasm
  | TsBuildInfo
  | SourceMap
  | Unknown
  deriving DecidableEq, Repr

/-- The TypeScript library variant (`TsTypeLib`): window for main workers,
worker for web workers. -/
inductive TsTypeLib where
  | denoWindow
  | denoWorker
  deriving DecidableEq, Repr

/-- The configured type-check mode (`TypeCheckMode`). -/
inductive TypeCheckMode where
  | All
  | Local
  | None
  deriving DecidableEq, Repr

/-- `deno_core::ResolutionKind`: static import, dynamic import, or main module. -/
inductive ResolutionKind where
  | mainModule
  | import
  | dynamicImport
  deriving DecidableEq, Repr

/-- `deno_core::ModuleType` of the produced module source. -/
inductive ModuleType where
  | JavaScript
  | Json
  deriving DecidableEq, Repr

/-- A permissions snapshot (`PermissionsContainer`). Its contents are opaque
to the loader; it is only cloned and passed through to collaborators. -/
structure PermissionsContainer where
  tag : Nat
  deriving DecidableEq, Repr

/-- Result of Node.js-compatible resolution (`node::NodeResolution`). -/
inductive NodeResolution where
  | esm (url : String)
  | commonJs (url : String)
  | builtIn (name : String)
  deriving DecidableEq, Repr

/-- `NodeResolution::into_url`. For `BuiltIn` the conversion prefixes the
builtin scheme (the loader intercepts `BuiltIn` before ever calling this). -/
def NodeResolution.into_url : NodeResolution → String
  | .esm u => u
  | .commonJs u => u
  | .builtIn n => "node:" ++ n

/-- A recorded resolution of one static import edge (`deno_graph::Resolution`).
`ok` carries the resolved specifier; `err` carries the diagnostic rendered by
`to_string_with_range`. -/
inductive Resolution where
  | ok (specifier : String)
  | err (diagnostic : String)
  | none
  deriving DecidableEq, Repr

/-- A dependency entry of an ESM module; the loader reads its code resolution
(`maybe_code`). -/
structure Dependency where
  maybe_code : Resolution
  deriving DecidableEq, Repr

/-- `deno_graph::EsmModule`: the fields the loader reads. -/
structure EsmModule where
  specifier : String
  source : String
  media_type : MediaType
  dependencies : List (String × Dependency)
  deriving DecidableEq, Repr

/-- `deno_graph::JsonModule`: the fields the loader reads. -/
structure JsonModule where
  specifier : String
  source : String
  media_type : MediaType
  deriving DecidableEq, Repr

/-- `deno_graph::Module`, a closed tagged union. -/
inductive Module where
  | esm (m : EsmModule)
  | json (m : JsonModule)
  | npm (nv_reference : String)
  | node (module_name : String)
  | external (specifier : String)
  deriving DecidableEq, Repr

/-- The committed module graph: an association of specifiers to modules. -/
structure ModuleGraph where
  modules : List (String × Module)
  deriving DecidableEq, Repr

/-- `graph.get(specifier)`. -/
def ModuleGraph.get (g : ModuleGraph) (s : String) : Option Module :=
  (g.modules.find? (fun p => p.1 == s)).map Prod.snd

/-- `graph.specifiers().map(|(s, _)| s)`. -/
def ModuleGraph.specifiers (g : ModuleGraph) : List String :=
  g.modules.map Prod.fst

/-- The `match` performed by `get_source_line` on a graph entry: ESM and JSON
modules expose their source, everything else yields nothing. -/
def moduleSource : Module → Option String
  | .esm m => some m.source
  | .json m => some m.source
  | _ => Option.none

/-- The `maybe_resolved` computation of `CliModuleLoader::resolve`: the code
resolution recorded on the referrer's dependency edge for `specifier`, when
the referrer is an ESM module of the graph. -/
def maybeCodeResolution (g : ModuleGraph) (referrer specifier : String) :
    Option Resolution :=
  match g.get referrer with
  | some (Module.esm m) =>
    ((m.dependencies.find? (fun p => p.1 == specifier)).map
      (fun p => p.2.maybe_code))
  | _ => Option.none

/-- `CliNodeResolver`: Node.js-compatible resolution, an external collaborator.
`NodeResolutionMode` is always `Execution` at the loader's call sites and is
therefore omitted. -/
structure NodeResolver where
  in_npm_package : String → Bool
  resolve :
    String → String → PermissionsContainer →
      Except String (Option NodeResolution)
  resolve_npm_reference :
    String → PermissionsContainer → Except String (Option NodeResolution)
  resolve_npm_req_reference :
    String → PermissionsContainer → Except String (Option NodeResolution)

/-- Environment of a `CliModuleLoader`: its configuration together with the
external collaborators it calls into. -/
structure Env where
  nodeResolver : NodeResolver
  /-- the generic import-map-aware `CliGraphResolver::resolve` -/
  resolver : String → String → Except String String
  /-- `Emitter::emit_parsed_source` -/
  emit_parsed_source : String → MediaType → String → Except String String
  /-- `NodeCodeTranslator::translate_cjs_to_esm` -/
  translate_cjs_to_esm :
    String → String → MediaType → PermissionsContainer →
      Except String String
  /-- `NodeCodeTranslator::esm_code_with_node_globals` -/
  esm_code_with_node_globals : String → String → Except String String
  /-- `std::fs::read_to_string` keyed by file path -/
  read_to_string : String → Except String String
  /-- `specifier.to_file_path().unwrap()` -/
  to_file_path : String → String
  /-- `MediaType::from_specifier` -/
  media_type_from_specifier : String → MediaType
  /-- `deno_core::resolve_url_or_path(_, cwd)` -/
  resolve_url_or_path : String → Except String String
  /-- `deno_core::resolve_url` -/
  resolve_url : String → Option String
  /-- `ModuleSpecifier::parse` -/
  parse_url : String → Option String
  /-- `deno_core::resolve_path(repl pseudo file, cwd)` -/
  repl_referrer : Except String String
  /-- `node::resolve_builtin_node_module`: maps a builtin module name into the
  builtin namespace; an unrecognized name is a hard error -/
  resolve_builtin_node_module : String → Except String String
  /-- `node::resolve_specifier_into_node_modules` -/
  resolve_specifier_into_node_modules : String → String
  /-- `NpmPackageReqReference::from_specifier` -/
  npm_req_reference_from_specifier : String → Except String String
  /-- Modelled from the spec: `code_without_source_map`
  (`util::text_encoding`, not part of the excerpt) strips any inline source
  map from emitted code; kept abstract here -/
  code_without_source_map : String → String
  /-- `colors::yellow` -/
  colors_yellow : String → String
  /-- `CliOptions::is_inspecting`: whether an interactive debugger is attached -/
  is_inspecting : Bool
  /-- whether the subcommand is `DenoSubcommand::Repl` -/
  is_repl : Bool
  root_permissions : PermissionsContainer
  dynamic_permissions : PermissionsContainer
  lib : TsTypeLib

/-- The mutable process-wide state threaded through the loader: the committed
graph, the `CjsResolutionStore` (modelled from the spec as a monotonic set of
specifiers, `proc_state.rs` is not part of the excerpt), the
`ParsedSourceCache` occupancy, and the TypeCheckedRegistry (modelled from the
spec as a set of (roots, lib) pairs, `graph_util.rs` is not part of the
excerpt). -/
structure St where
  graph : ModuleGraph
  cjs_resolutions : List String
  parsed_source_cache : List String
  type_checked : List (List String × TsTypeLib)
  deriving DecidableEq, Repr

/-- `anyhow`'s `with_context`: prepend context to a propagating error. -/
def withContext {α : Type} (ctx : String) : Except String α → Except String α
  | .error e => .error (ctx ++ ": " ++ e)
  | .ok a => .ok a

/-- `CjsResolutionStore::contains`, modelled from the spec as set membership. -/
def cjsContains (store : List String) (specifier : String) : Bool :=
  decide (specifier ∈ store)

/-- `CjsResolutionStore::insert`, modelled from the spec: add, never remove. -/
def cjsInsert (store : List String) (specifier : String) : List String :=
  specifier :: store

/-- `CliModuleLoader::handle_node_resolve_result`: a `CommonJs` resolution is
remembered in the `CjsResolutionStore`; a `BuiltIn` resolution is mapped into
the builtin namespace; anything else is converted to its URL. -/
def handle_node_resolve_result (env : Env) (st : St)
    (result : Except String (Option NodeResolution)) :
    Except String String × St :=
  match result with
  | .error e => (.error e, st)
  | .ok Option.none => (.error "not found", st)
  | .ok (some response) =>
    match response with
    | .commonJs specifier =>
      (.ok response.into_url,
        { st with cjs_resolutions := cjsInsert st.cjs_resolutions specifier })
    | .builtIn specifier => (env.resolve_builtin_node_module specifier, st)
    | .esm _ => (.ok response.into_url, st)

/-- `specifier.strip_prefix("node:")` of the resolve path: the module name
after an explicit `node:` scheme, if present. -/
def nodeBuiltinName (s : String) : Option String :=
  match s.data with
  | 'n' :: 'o' :: 'd' :: 'e' :: ':' :: rest => some (String.mk rest)
  | _ => Option.none

/-- The tail of `CliModuleLoader::resolve` reached when neither the npm-realm
branch nor a recorded graph edge produced a result: explicit builtin scheme,
REPL referrer accommodation, generic resolution, and the REPL npm-requirement
fallback. -/
def resolveTail (env : Env) (st : St) (specifier referrer : String)
    (permissions : PermissionsContainer)
    (referrer_result : Except String String) :
    Except String String × St :=
  match nodeBuiltinName specifier with
  | some module_name => (env.resolve_builtin_node_module module_name, st)
  | Option.none =>
    let referrerE : Except String String :=
      if referrer == "" && env.is_repl then env.repl_referrer
      else referrer_result
    match referrerE with
    | .error e => (.error e, st)
    | .ok referrerUrl =>
      let resolution := env.resolver specifier referrerUrl
      if env.is_repl then
        let specifier2 : Option String :=
          match resolution with
          | .ok s => some s
          | .error _ => env.parse_url specifier
        match specifier2 with
        | some s =>
          match env.npm_req_reference_from_specifier s with
          | .ok reference =>
            let pr := handle_node_resolve_result env st
              (env.nodeResolver.resolve_npm_req_reference reference permissions)
            (withContext ("Could not resolve '" ++ reference ++ "'.") pr.1,
              pr.2)
          | .error _ => (resolution, st)
        | Option.none => (resolution, st)
      else (resolution, st)

/-- `CliModuleLoader::resolve`. -/
def resolve (env : Env) (st : St) (specifier referrer : String)
    (kind : ResolutionKind) : Except String String × St :=
  let permissions :=
    match kind with
    | .dynamicImport => env.dynamic_permissions
    | _ => env.root_permissions
  let referrer_result := env.resolve_url_or_path referrer
  match referrer_result with
  | .ok referrerUrl =>
    if env.nodeResolver.in_npm_package referrerUrl then
      let pr := handle_node_resolve_result env st
        (env.nodeResolver.resolve specifier referrerUrl permissions)
      (withContext
        ("Could not resolve '" ++ specifier ++ "' from '" ++ referrerUrl
          ++ "'.") pr.1, pr.2)
    else
      match maybeCodeResolution st.graph referrerUrl specifier with
      | some (Resolution.ok resolved) =>
        match st.graph.get resolved with
        | some (Module.npm nv) =>
          let pr := handle_node_resolve_result env st
            (env.nodeResolver.resolve_npm_reference nv permissions)
          (withContext ("Could not resolve '" ++ nv ++ "'.") pr.1, pr.2)
        | some (Module.node m) => (env.resolve_builtin_node_module m, st)
        | some (Module.esm m) => (.ok m.specifier, st)
        | some (Module.json m) => (.ok m.specifier, st)
        | some (Module.external s) =>
          (.ok (env.resolve_specifier_into_node_modules s), st)
        | Option.none => (.ok resolved, st)
      | some (Resolution.err d) =>
        (.error ("TypeError: " ++ d ++ "\n"), st)
      | some Resolution.none =>
        resolveTail env st specifier referrer permissions referrer_result
      | Option.none =>
        resolveTail env st specifier referrer permissions referrer_result
  | .error _ =>
    resolveTail env st specifier referrer permissions referrer_result

/-- Characters before the first colon. -/
def untilColon : List Char → List Char
  | [] => []
  | c :: cs => if c = ':' then [] else c :: untilColon cs

/-- Scheme of a URL-shaped specifier string (`specifier.scheme()`). -/
def urlScheme (s : String) : String :=
  String.mk (untilColon s.data)

/-- `ParsedSourceCache::free`. -/
def cacheFree (cache : List String) (s : String) : List String :=
  cache.filter (fun x => x ≠ s)

/-- The `(code, found_url, media_type)` triple produced by the load path
(`ModuleCodeSource`). -/
structure ModuleCodeSource where
  code : String
  found_url : String
  media_type : MediaType
  deriving DecidableEq, Repr

/-- Outcome of producing a `ModuleCodeSource`: success, a propagated error, or
a Rust panic (`unreachable!` / `panic!`). -/
inductive CodeLoadResult where
  | ok (source : ModuleCodeSource)
  | error (msg : String)
  | panicked (msg : String)
  deriving DecidableEq, Repr

/-- `CliModuleLoader::load_prepared_module`. -/
def load_prepared_module (env : Env) (st : St) (specifier : String)
    (maybe_referrer : Option String) : CodeLoadResult × St :=
  if urlScheme specifier == "node" then
    (.panicked "internal error: entered unreachable code", st)
  else
    match st.graph.get specifier with
    | some (Module.json m) =>
      (.ok ⟨m.source, m.specifier, m.media_type⟩, st)
    | some (Module.esm m) =>
      match m.media_type with
      | .JavaScript | .Unknown | .Cjs | .Mjs | .Json =>
        (.ok ⟨m.source, m.specifier, m.media_type⟩,
          { st with
            parsed_source_cache := cacheFree st.parsed_source_cache m.specifier })
      | .Dts | .Dcts | .Dmts =>
        (.ok ⟨"", m.specifier, m.media_type⟩,
          { st with
            parsed_source_cache := cacheFree st.parsed_source_cache m.specifier })
      | .TypeScript | .Mts | .Cts | .Jsx | .Tsx =>
        match env.emit_parsed_source m.specifier m.media_type m.source with
        | .error e => (.error e, st)
        | .ok emitted =>
          (.ok ⟨emitted, m.specifier, m.media_type⟩,
            { st with
              parsed_source_cache :=
                cacheFree st.parsed_source_cache m.specifier })
      | .TsBuildInfo | .Wasm | .SourceMap =>
        (.panicked ("Unexpected media type for " ++ m.specifier), st)
    | _ =>
      (.error
        ("Loading unprepared module: " ++ specifier ++
          (match maybe_referrer with
           | some r => ", imported from: " ++ r
           | Option.none => "")), st)

/-- The translation step of the npm-realm load path: CJS-marked specifiers go
through the CJS-to-ESM translator, others get the plain node-globals
injection. -/
def npm_module_code (env : Env) (st : St) (specifier code : String)
    (is_dynamic : Bool) : Except String String :=
  let permissions :=
    if is_dynamic then env.dynamic_permissions else env.root_permissions
  if cjsContains st.cjs_resolutions specifier then
    env.translate_cjs_to_esm specifier code MediaType.Cjs permissions
  else
    env.esm_code_with_node_globals specifier code

/-- The `code_source` computation of `CliModuleLoader::load_sync`: disk load
plus interop translation inside an npm realm, graph load otherwise. -/
def load_code_source (env : Env) (st : St) (specifier : String)
    (maybe_referrer : Option String) (is_dynamic : Bool) :
    CodeLoadResult × St :=
  if env.nodeResolver.in_npm_package specifier then
    let file_path := env.to_file_path specifier
    match env.read_to_string file_path with
    | .error e =>
      (.error
        ("Unable to load " ++ file_path ++
          (match maybe_referrer with
           | some r => " imported from " ++ r
           | Option.none => "") ++ ": " ++ e), st)
    | .ok code =>
      match npm_module_code env st specifier code is_dynamic with
      | .error e => (.error e, st)
      | .ok translated =>
        (.ok ⟨translated, specifier, env.media_type_from_specifier specifier⟩,
          st)
  else
    load_prepared_module env st specifier maybe_referrer

/-- The final `ModuleSource` handed to the engine. -/
structure ModuleSource where
  module_type : ModuleType
  code : String
  specifier : String
  found_url : String
  deriving DecidableEq, Repr

/-- Outcome of a full load. -/
inductive LoadResult where
  | ok (source : ModuleSource)
  | error (msg : String)
  | panicked (msg : String)
  deriving DecidableEq, Repr

/-- `CliModuleLoader::load_sync`: produce the code source, then gate the
inline source map on debugger attachment and package the result. -/
def load_sync (env : Env) (st : St) (specifier : String)
    (maybe_referrer : Option String) (is_dynamic : Bool) :
    LoadResult × St :=
  match load_code_source env st specifier maybe_referrer is_dynamic with
  | (.error e, st') => (.error e, st')
  | (.panicked m, st') => (.panicked m, st')
  | (.ok cs, st') =>
    let code :=
      if env.is_inspecting then cs.code
      else env.code_without_source_map cs.code
    (.ok
      ⟨(match cs.media_type with
        | MediaType.Json => ModuleType.Json
        | _ => ModuleType.JavaScript),
        code, specifier, cs.found_url⟩, st')

/-- The lockfile collaborator: `graph_lock_or_exit` terminates the process on
an integrity mismatch (modelled from the spec, `graph_util.rs` is not part of
the excerpt: `verify` false means process exit), `write` persists it. -/
structure Lockfile where
  verify : ModuleGraph → Bool
  write : Except String Unit

/-- Environment of `ModuleLoadPreparer`: options and external collaborators of
`prepare_module_load`. -/
structure PrepareEnv where
  type_check_mode : TypeCheckMode
  /-- `CliOptions::reload_flag` -/
  reload_flag : Bool
  /-- `ModuleGraphBuilder::build_graph_with_npm_resolution`: extends the
  working copy of the graph from the roots -/
  build_graph_with_npm_resolution :
    ModuleGraph → List String → Bool → Except String ModuleGraph
  /-- `graph_valid_with_cli_options` -/
  graph_valid_with_cli_options :
    ModuleGraph → List String → Except String Unit
  lockfile : Option Lockfile
  /-- `TypeChecker::check` on the graph segment of the roots; the `Bool`
  argument is the `reload` option -/
  check : ModuleGraph → List String → TsTypeLib → Bool → Except String Unit

/-- `ModuleGraphContainer::is_type_checked`, modelled from the spec as
membership of `(roots, lib)` in the TypeCheckedRegistry. -/
def is_type_checked (reg : List (List String × TsTypeLib))
    (roots : List String) (lib : TsTypeLib) : Bool :=
  decide ((roots, lib) ∈ reg)

/-- `ModuleGraphContainer::set_type_checked`, modelled from the spec as an
insertion into the TypeCheckedRegistry. -/
def set_type_checked (reg : List (List String × TsTypeLib))
    (roots : List String) (lib : TsTypeLib) :
    List (List String × TsTypeLib) :=
  (roots, lib) :: reg

/-- Outcome of a prepare call: success, a propagated error, or process
termination by the lockfile integrity check. -/
inductive PrepareOutcome where
  | ok
  | error (msg : String)
  | exited
  deriving DecidableEq, Repr

/-- Result of `prepare_module_load`, instrumented with whether the external
`TypeChecker` was invoked and, when it was, which `reload` option it was
given. -/
structure PrepareResult where
  outcome : PrepareOutcome
  st : St
  checkerInvoked : Bool
  checkerReload : Option Bool
  deriving Repr

/-- The lockfile step of `prepare_module_load`: with no configured lockfile
do nothing; otherwise `graph_lock_or_exit` (exit on integrity mismatch)
followed by `lockfile.write()`. -/
def lockfileStep (penv : PrepareEnv) (graph : ModuleGraph) : PrepareOutcome :=
  match penv.lockfile with
  | Option.none => .ok
  | some lf =>
    if lf.verify graph then
      match lf.write with
      | .ok _ => .ok
      | .error e => .error e
    else .exited

/-- The gated type-check step of `prepare_module_load`, run on the committed
state `st1`: skipped when type checking is off or `(roots, lib)` is already
registered; otherwise the checker runs with `reload` set exactly per the
source condition, and on success `(roots, lib)` is registered. -/
def typeCheckStep (penv : PrepareEnv) (st1 : St) (roots : List String)
    (lib : TsTypeLib) (reload_exclusions : List String) : PrepareResult :=
  if penv.type_check_mode ≠ TypeCheckMode.None ∧
      is_type_checked st1.type_checked roots lib = false then
    match penv.check st1.graph roots lib
        (penv.reload_flag &&
          !(roots.all (fun r => decide (r ∈ reload_exclusions)))) with
    | .error e =>
      ⟨.error e, st1, true,
        some (penv.reload_flag &&
          !(roots.all (fun r => decide (r ∈ reload_exclusions))))⟩
    | .ok _ =>
      ⟨.ok,
        { st1 with
          type_checked := set_type_checked st1.type_checked roots lib },
        true,
        some (penv.reload_flag &&
          !(roots.all (fun r => decide (r ∈ reload_exclusions))))⟩
  else ⟨.ok, st1, false, Option.none⟩

/-- `ModuleLoadPreparer::prepare_module_load`: snapshot the reload exclusions,
build the graph under the update permit, validate it, verify and write the
lockfile, commit, then run gated type checking. -/
def prepare_module_load (penv : PrepareEnv) (st : St) (roots : List String)
    (is_dynamic : Bool) (lib : TsTypeLib) : PrepareResult :=
  match penv.build_graph_with_npm_resolution st.graph roots is_dynamic with
  | .error e => ⟨.error e, st, false, Option.none⟩
  | .ok graph =>
    match penv.graph_valid_with_cli_options graph roots with
    | .error e => ⟨.error e, st, false, Option.none⟩
    | .ok _ =>
      match lockfileStep penv graph with
      | .exited => ⟨.exited, st, false, Option.none⟩
      | .error e => ⟨.error e, st, false, Option.none⟩
      | .ok =>
        typeCheckStep penv { st with graph := graph } roots lib
          st.graph.specifiers

/-- Result of `CliModuleLoader::prepare_load`, instrumented with whether the
`ModuleLoadPreparer` was invoked at all. -/
structure PrepareLoadResult where
  outcome : PrepareOutcome
  preparerInvoked : Bool
  st : St
  deriving Repr

/-- `CliModuleLoader::prepare_load`: npm-realm specifiers need no preparation;
everything else goes through `prepare_module_load` with the loader's lib. -/
def prepare_load (env : Env) (penv : PrepareEnv) (st : St)
    (specifier : String) (is_dynamic : Bool) : PrepareLoadResult :=
  if env.nodeResolver.in_npm_package specifier then
    ⟨.ok, false, st⟩
  else
    let r := prepare_module_load penv st [specifier] is_dynamic env.lib
    ⟨r.outcome, true, r.st⟩

/-- `code.split('\n')` on the character list: every newline separates
segments; a terminating newline yields a terminating empty segment (the
source deliberately uses `split`, not `lines`, for exactly this reason). -/
def splitNewlines : List Char → List (List Char)
  | [] => [[]]
  | c :: cs =>
    if c = '\n' then [] :: splitNewlines cs
    else
      match splitNewlines cs with
      | [] => [[c]]
      | l :: ls => (c :: l) :: ls

/-- The line list of a source text, as `get_source_line` computes it. -/
def sourceLines (code : String) : List String :=
  (splitNewlines code.data).map String.mk

/-- `CliModuleLoader::get_source_line` (of the `SourceMapGetter` impl). -/
def get_source_line (env : Env) (st : St) (file_name : String)
    (line_number : Nat) : Option String :=
  match env.resolve_url file_name with
  | Option.none => Option.none
  | some url =>
    match (st.graph.get url).bind moduleSource with
    | Option.none => Option.none
    | some code =>
      let lines := sourceLines code
      if line_number ≥ lines.length then
        some (env.colors_yellow "Warning" ++
          " Couldn't format source line: Line " ++
          toString (line_number + 1) ++
          " is out of bounds (source may have changed at runtime)")
      else
        some (lines.getD line_number "")

/-! ### Concrete instances used by counterexamples and witnesses -/

/-- A node resolver that considers nothing an npm package and resolves
nothing. -/
def noopNodeResolver : NodeResolver where
  in_npm_package := fun _ => false
  resolve := fun _ _ _ => .ok Option.none
  resolve_npm_reference := fun _ _ => .ok Option.none
  resolve_npm_req_reference := fun _ _ => .ok Option.none

/-- A concrete environment with simple, fully computable collaborators. -/
def baseEnv : Env where
  nodeResolver := noopNodeResolver
  resolver := fun s _ => .ok s
  emit_parsed_source := fun _ _ src => .ok (src ++ " [emitted]")
  translate_cjs_to_esm := fun _ code _ _ => .ok (code ++ " [cjs]")
  esm_code_with_node_globals := fun _ code => .ok (code ++ " [esm]")
  read_to_string := fun _ => .error "no such file"
  to_file_path := fun s => s.drop 7
  media_type_from_specifier := fun _ => MediaType.JavaScript
  resolve_url_or_path := fun s => if s == "" then .error "empty" else .ok s
  resolve_url := fun s => some s
  parse_url := fun s => some s
  repl_referrer := .ok "file:///repl.ts"
  resolve_builtin_node_module := fun n => .ok ("node:" ++ n)
  resolve_specifier_into_node_modules := fun s => s ++ "/node_modules"
  npm_req_reference_from_specifier := fun _ => .error "not an npm requirement"
  code_without_source_map := fun c => c ++ " [stripped]"
  colors_yellow := fun s => s
  is_inspecting := false
  is_repl := false
  root_permissions := ⟨0⟩
  dynamic_permissions := ⟨1⟩
  lib := TsTypeLib.denoWindow

/-- The empty state. -/
def emptySt : St := ⟨⟨[]⟩, [], [], []⟩

/-- A graph in which the referrer has a recorded code resolution for the
specifier "node:fs" pointing at an ordinary ESM module. -/
def stGraphEdge : St :=
  { emptySt with
    graph :=
      ⟨[("file:///ref.ts",
          Module.esm
            ⟨"file:///ref.ts", "", MediaType.JavaScript,
              [("node:fs", ⟨Resolution.ok "file:///x.ts"⟩)]⟩),
        ("file:///x.ts",
          Module.esm ⟨"file:///x.ts", "", MediaType.JavaScript, []⟩)]⟩ }

/-- The fall-through condition of `resolve`: true when neither the
npm-realm branch nor a recorded graph edge intercepts the call — the
referrer fails to parse, or it parses outside any npm realm and the graph
records no `Ok`/`Err` code resolution for the specifier on it. -/
def graphFallsThrough (env : Env) (st : St) (specifier referrer : String) :
    Bool :=
  match env.resolve_url_or_path referrer with
  | .error _ => true
  | .ok u =>
    !(env.nodeResolver.in_npm_package u) &&
    (match maybeCodeResolution st.graph u specifier with
     | some (Resolution.ok _) => false
     | some (Resolution.err _) => false
     | _ => true)

/-- A node resolver that places every specifier inside an npm realm and
resolves every specifier to itself as ESM. -/
def npmNodeResolver : NodeResolver where
  in_npm_package := fun _ => true
  resolve := fun s _ _ => .ok (some (NodeResolution.esm s))
  resolve_npm_reference := fun _ _ => .ok Option.none
  resolve_npm_req_reference := fun _ _ => .ok Option.none

/-- An environment whose node resolver claims everything is in an npm realm
and whose file system returns fixed contents. -/
def envNpm : Env :=
  { baseEnv with
    nodeResolver := npmNodeResolver
    read_to_string := fun _ => .ok "module code" }

/-- A state with one specifier recorded in the `CjsResolutionStore`. -/
def stCjs : St :=
  { emptySt with cjs_resolutions := ["file:///node_modules/a/index.js"] }

/-- A graph holding a single type-only declaration module, with its parsed
source cached. -/
def stDts : St :=
  { emptySt with
    graph :=
      ⟨[("file:///a.d.ts",
          Module.esm ⟨"file:///a.d.ts", "declare const x;", MediaType.Dts, []⟩)]⟩
    parsed_source_cache := ["file:///a.d.ts"] }

/-- A graph holding a single JSON module, with a parsed-source cache entry. -/
def stJsonMod : St :=
  { emptySt with
    graph :=
      ⟨[("file:///a.json",
          Module.json ⟨"file:///a.json", "1", MediaType.Json⟩)]⟩
    parsed_source_cache := ["file:///a.json"] }

/-- A graph holding one TypeScript module with a cached parsed source. -/
def stTsGraph : St :=
  { emptySt with
    graph :=
      ⟨[("file:///m.ts",
          Module.esm ⟨"file:///m.ts", "const a = 1;", MediaType.TypeScript, []⟩)]⟩
    parsed_source_cache := ["file:///m.ts"] }

/-- A graph holding one two-line module for source-line lookups. -/
def stSrcLines : St :=
  { emptySt with
    graph :=
      ⟨[("file:///s.ts",
          Module.esm ⟨"file:///s.ts", "l0\nl1", MediaType.TypeScript, []⟩)]⟩ }

/-- A prepare environment in which every collaborator succeeds: the builder
adds each root as a fresh TypeScript module, validation, lockfile and the
checker all pass, and full type checking is on. -/
def basePrepareEnv : PrepareEnv where
  type_check_mode := TypeCheckMode.All
  reload_flag := false
  build_graph_with_npm_resolution := fun g roots _ =>
    .ok ⟨g.modules ++ roots.map
      (fun r => (r, Module.esm ⟨r, "", MediaType.TypeScript, []⟩))⟩
  graph_valid_with_cli_options := fun _ _ => .ok ()
  lockfile := Option.none
  check := fun _ _ _ _ => .ok ()

/-- The same prepare environment with an explicit reload requested. -/
def reloadPrepareEnv : PrepareEnv :=
  { basePrepareEnv with reload_flag := true }

/-! ## Theorems -/

/-- `handle_node_resolve_result` never consults the generic resolver: its
outcome is unchanged when that collaborator is replaced. -/
theorem handle_node_resolve_result_resolver_irrelevant (env : Env)
    (r2 : String → String → Except String String) (st : St)
    (res : Except String (Option NodeResolution)) :
    handle_node_resolve_result { env with resolver := r2 } st res =
      handle_node_resolve_result env st res := by
  unfold handle_node_resolve_result
  rcases res with e | o
  · rfl
  rcases o with _ | r
  · rfl
  rcases r with u | u | n <;> rfl

/-- Claim C1: for every `resolve(specifier, referrer, kind)` call whose
referrer parses to a URL inside an npm package realm, the result is produced
entirely by the node resolver (wrapped by `handle_node_resolve_result` with
the diagnostic context), and the generic import-map-aware resolver is never
consulted: the outcome is independent of the `resolver` collaborator. -/
theorem npm_realm_referrer_delegates_to_node_resolver (env : Env) (st : St)
    (specifier referrer : String) (kind : ResolutionKind) (u : String)
    (r2 : String → String → Except String String)
    (h1 : env.resolve_url_or_path referrer = Except.ok u)
    (h2 : env.nodeResolver.in_npm_package u = true) :
    (resolve env st specifier referrer kind =
      ((withContext
        ("Could not resolve '" ++ specifier ++ "' from '" ++ u ++ "'.")
        (handle_node_resolve_result env st
          (env.nodeResolver.resolve specifier u
            (match kind with
             | ResolutionKind.dynamicImport => env.dynamic_permissions
             | _ => env.root_permissions))).1),
        (handle_node_resolve_result env st
          (env.nodeResolver.resolve specifier u
            (match kind with
             | ResolutionKind.dynamicImport => env.dynamic_permissions
             | _ => env.root_permissions))).2))
    ∧ resolve { env with resolver := r2 } st specifier referrer kind =
        resolve env st specifier referrer kind := by
  constructor
  · simp only [resolve, h1, h2, if_true]
  · simp only [resolve, h1, h2, if_true,
      handle_node_resolve_result_resolver_irrelevant]

/-- Witness for C1 at a concrete npm-realm referrer. -/
theorem npm_realm_referrer_delegates_to_node_resolver_witness :
    (resolve envNpm emptySt "./a.js" "file:///node_modules/pkg/index.js"
      ResolutionKind.import).1 = Except.ok "./a.js" := by
  have h := (npm_realm_referrer_delegates_to_node_resolver envNpm emptySt
    "./a.js" "file:///node_modules/pkg/index.js" ResolutionKind.import
    "file:///node_modules/pkg/index.js" (fun _ _ => Except.error "unused")
    (by decide) (by decide)).1
  rw [h]
  decide

/-- Claim C2 is false as stated: with a recorded graph edge for "node:fs" on
the referrer, resolution follows the edge to an ordinary ESM module of the
graph instead of yielding the builtin-namespace result — the outcome is not
independent of the graph's contents. -/
theorem builtin_specifier_graph_dependent_cex :
    (resolve baseEnv stGraphEdge "node:fs" "file:///ref.ts"
        ResolutionKind.import).1 = Except.ok "file:///x.ts"
    ∧ (resolve baseEnv stGraphEdge "node:fs" "file:///ref.ts"
        ResolutionKind.import).1 ≠ baseEnv.resolve_builtin_node_module "fs" := by
  constructor
  · decide
  · decide

/-- Claim C2 (amended): a specifier carrying the explicit `node:` scheme
resolves to the builtin-namespace result whenever neither the npm-realm
branch nor a recorded graph code-resolution edge intercepts the call; under
that condition the outcome is independent of the rest of the graph. -/
theorem builtin_specifier_resolution_on_fallthrough (env : Env) (st : St)
    (specifier referrer : String) (kind : ResolutionKind) (name : String)
    (hname : nodeBuiltinName specifier = some name)
    (hfall : graphFallsThrough env st specifier referrer = true) :
    resolve env st specifier referrer kind =
      (env.resolve_builtin_node_module name, st) := by
  simp only [resolve]
  simp only [graphFallsThrough] at hfall
  cases hu : env.resolve_url_or_path referrer with
  | error e =>
    simp only [resolveTail, hname]
  | ok u =>
    rw [hu] at hfall
    simp only [Bool.and_eq_true, Bool.not_eq_true'] at hfall
    obtain ⟨hnpm, hres⟩ := hfall
    simp only [hnpm, Bool.false_eq_true, if_false]
    cases hmc : maybeCodeResolution st.graph u specifier with
    | none => simp only [hmc, resolveTail, hname]
    | some r =>
      cases r with
      | ok s => rw [hmc] at hres; simp at hres
      | err d => rw [hmc] at hres; simp at hres
      | none => simp only [hmc, resolveTail, hname]

/-- Witness for the amended C2 at a concrete fall-through input. -/
theorem builtin_specifier_resolution_on_fallthrough_witness :
    resolve baseEnv emptySt "node:fs" "file:///ref.ts" ResolutionKind.import =
      (baseEnv.resolve_builtin_node_module "fs", emptySt) :=
  builtin_specifier_resolution_on_fallthrough baseEnv emptySt "node:fs"
    "file:///ref.ts" ResolutionKind.import "fs" (by decide) (by decide)

/-- Stage equation: a failed graph build short-circuits the prepare call. -/
theorem prepare_eq_of_build_error (penv : PrepareEnv) (st : St)
    (roots : List String) (is_dynamic : Bool) (lib : TsTypeLib) (e : String)
    (hb : penv.build_graph_with_npm_resolution st.graph roots is_dynamic =
      Except.error e) :
    prepare_module_load penv st roots is_dynamic lib =
      ⟨.error e, st, false, Option.none⟩ := by
  unfold prepare_module_load
  rw [hb]

/-- Stage equation: a failed graph validation short-circuits the prepare
call. -/
theorem prepare_eq_of_valid_error (penv : PrepareEnv) (st : St)
    (roots : List String) (is_dynamic : Bool) (lib : TsTypeLib)
    (graph : ModuleGraph) (e : String)
    (hb : penv.build_graph_with_npm_resolution st.graph roots is_dynamic =
      Except.ok graph)
    (hv : penv.graph_valid_with_cli_options graph roots = Except.error e) :
    prepare_module_load penv st roots is_dynamic lib =
      ⟨.error e, st, false, Option.none⟩ := by
  unfold prepare_module_load
  simp only [hb, hv]

/-- Stage equation: a lockfile integrity violation terminates the prepare
call. -/
theorem prepare_eq_of_lock_exited (penv : PrepareEnv) (st : St)
    (roots : List String) (is_dynamic : Bool) (lib : TsTypeLib)
    (graph : ModuleGraph)
    (hb : penv.build_graph_with_npm_resolution st.graph roots is_dynamic =
      Except.ok graph)
    (hv : penv.graph_valid_with_cli_options graph roots = Except.ok ())
    (hl : lockfileStep penv graph = PrepareOutcome.exited) :
    prepare_module_load penv st roots is_dynamic lib =
      ⟨.exited, st, false, Option.none⟩ := by
  unfold prepare_module_load
  simp only [hb, hv, hl]

/-- Stage equation: a lockfile write error short-circuits the prepare call. -/
theorem prepare_eq_of_lock_error (penv : PrepareEnv) (st : St)
    (roots : List String) (is_dynamic : Bool) (lib : TsTypeLib)
    (graph : ModuleGraph) (e : String)
    (hb : penv.build_graph_with_npm_resolution st.graph roots is_dynamic =
      Except.ok graph)
    (hv : penv.graph_valid_with_cli_options graph roots = Except.ok ())
    (hl : lockfileStep penv graph = PrepareOutcome.error e) :
    prepare_module_load penv st roots is_dynamic lib =
      ⟨.error e, st, false, Option.none⟩ := by
  unfold prepare_module_load
  simp only [hb, hv, hl]

/-- Stage equation: after build, validation, lockfile and commit all
succeed, the prepare call is exactly the gated type-check step on the
committed state, with the pre-build specifier snapshot as reload
exclusions. -/
theorem prepare_eq_typeCheckStep (penv : PrepareEnv) (st : St)
    (roots : List String) (is_dynamic : Bool) (lib : TsTypeLib)
    (graph : ModuleGraph)
    (hb : penv.build_graph_with_npm_resolution st.graph roots is_dynamic =
      Except.ok graph)
    (hv : penv.graph_valid_with_cli_options graph roots = Except.ok ())
    (hl : lockfileStep penv graph = PrepareOutcome.ok) :
    prepare_module_load penv st roots is_dynamic lib =
      typeCheckStep penv { st with graph := graph } roots lib
        st.graph.specifiers := by
  unfold prepare_module_load
  simp only [hb, hv, hl]

/-- After a successful type-check step, `(roots, lib)` is registered. -/
theorem typeCheckStep_mem_of_ok (penv : PrepareEnv) (st1 : St)
    (roots : List String) (lib : TsTypeLib) (excl : List String)
    (h1 : (typeCheckStep penv st1 roots lib excl).outcome = PrepareOutcome.ok)
    (h2 : penv.type_check_mode ≠ TypeCheckMode.None) :
    (roots, lib) ∈ (typeCheckStep penv st1 roots lib excl).st.type_checked := by
  unfold typeCheckStep at h1 ⊢
  by_cases hc : penv.type_check_mode ≠ TypeCheckMode.None ∧
      is_type_checked st1.type_checked roots lib = false
  · rw [if_pos hc] at h1 ⊢
    cases hck : penv.check st1.graph roots lib
        (penv.reload_flag && !(roots.all (fun r => decide (r ∈ excl)))) with
    | error e => rw [hck] at h1; simp at h1
    | ok _ => exact List.mem_cons_self _ _
  · rw [if_neg hc] at h1 ⊢
    have hmem : is_type_checked st1.type_checked roots lib = true := by
      by_contra hne
      exact hc ⟨h2, Bool.eq_false_iff.mpr hne⟩
    exact of_decide_eq_true hmem

/-- A registered `(roots, lib)` pair makes the type-check step a no-op. -/
theorem typeCheckStep_skip_of_mem (penv : PrepareEnv) (st1 : St)
    (roots : List String) (lib : TsTypeLib) (excl : List String)
    (h : (roots, lib) ∈ st1.type_checked) :
    (typeCheckStep penv st1 roots lib excl).checkerInvoked = false := by
  unfold typeCheckStep
  rw [if_neg]
  intro hc
  exact absurd h (of_decide_eq_false hc.2)

/-- Helper: a successful `prepare_module_load` with type checking enabled
leaves `(roots, lib)` registered in the resulting state. -/
theorem prepare_registers_type_checked (penv : PrepareEnv) (st : St)
    (roots : List String) (is_dynamic : Bool) (lib : TsTypeLib)
    (h1 : (prepare_module_load penv st roots is_dynamic lib).outcome =
      PrepareOutcome.ok)
    (h2 : penv.type_check_mode ≠ TypeCheckMode.None) :
    (roots, lib) ∈
      (prepare_module_load penv st roots is_dynamic lib).st.type_checked := by
  cases hb : penv.build_graph_with_npm_resolution st.graph roots is_dynamic with
  | error e =>
    rw [prepare_eq_of_build_error penv st roots is_dynamic lib e hb] at h1
    simp at h1
  | ok graph =>
    cases hv : penv.graph_valid_with_cli_options graph roots with
    | error e =>
      rw [prepare_eq_of_valid_error penv st roots is_dynamic lib graph e hb hv]
        at h1
      simp at h1
    | ok u =>
      cases u
      cases hl : lockfileStep penv graph with
      | exited =>
        rw [prepare_eq_of_lock_exited penv st roots is_dynamic lib graph hb hv
          hl] at h1
        simp at h1
      | error e =>
        rw [prepare_eq_of_lock_error penv st roots is_dynamic lib graph e hb hv
          hl] at h1
        simp at h1
      | ok =>
        rw [prepare_eq_typeCheckStep penv st roots is_dynamic lib graph hb hv
          hl] at h1 ⊢
        exact typeCheckStep_mem_of_ok penv _ roots lib _ h1 h2

/-- Helper: with `(roots, lib)` already registered, `prepare_module_load`
never invokes the type checker. -/
theorem prepare_skips_checker_of_mem (penv : PrepareEnv) (st : St)
    (roots : List String) (is_dynamic : Bool) (lib : TsTypeLib)
    (h : (roots, lib) ∈ st.type_checked) :
    (prepare_module_load penv st roots is_dynamic lib).checkerInvoked =
      false := by
  cases hb : penv.build_graph_with_npm_resolution st.graph roots is_dynamic with
  | error e =>
    rw [prepare_eq_of_build_error penv st roots is_dynamic lib e hb]
  | ok graph =>
    cases hv : penv.graph_valid_with_cli_options graph roots with
    | error e =>
      rw [prepare_eq_of_valid_error penv st roots is_dynamic lib graph e hb hv]
    | ok u =>
      cases u
      cases hl : lockfileStep penv graph with
      | exited =>
        rw [prepare_eq_of_lock_exited penv st roots is_dynamic lib graph hb hv
          hl]
      | error e =>
        rw [prepare_eq_of_lock_error penv st roots is_dynamic lib graph e hb hv
          hl]
      | ok =>
        rw [prepare_eq_typeCheckStep penv st roots is_dynamic lib graph hb hv
          hl]
        exact typeCheckStep_skip_of_mem penv _ roots lib _ h

/-- Claim C3: after a first `prepare_module_load(R, L)` call completes
successfully with type checking enabled, a second call with the same roots
and lib (whatever its dynamic flag) does not invoke the type checker: the
pair is registered in the TypeCheckedRegistry and the registry check gates
the call. -/
theorem second_prepare_skips_type_checker (penv : PrepareEnv) (st : St)
    (roots : List String) (d1 d2 : Bool) (lib : TsTypeLib)
    (h1 : (prepare_module_load penv st roots d1 lib).outcome =
      PrepareOutcome.ok)
    (h2 : penv.type_check_mode ≠ TypeCheckMode.None) :
    (prepare_module_load penv (prepare_module_load penv st roots d1 lib).st
      roots d2 lib).checkerInvoked = false :=
  prepare_skips_checker_of_mem penv _ roots d2 lib
    (prepare_registers_type_checked penv st roots d1 lib h1 h2)

/-- Witness for C3: two successive prepares of the same root. -/
theorem second_prepare_skips_type_checker_witness :
    (prepare_module_load basePrepareEnv
      (prepare_module_load basePrepareEnv emptySt ["file:///main.ts"] false
        TsTypeLib.denoWindow).st
      ["file:///main.ts"] false TsTypeLib.denoWindow).checkerInvoked =
      false :=
  second_prepare_skips_type_checker basePrepareEnv emptySt ["file:///main.ts"]
    false false TsTypeLib.denoWindow (by decide) (by decide)

/-- The reload argument handed to the checker by the type-check step. -/
theorem typeCheckStep_reload_eq (penv : PrepareEnv) (st1 : St)
    (roots : List String) (lib : TsTypeLib) (excl : List String) (r : Bool)
    (h : (typeCheckStep penv st1 roots lib excl).checkerReload = some r) :
    r = (penv.reload_flag && !(roots.all (fun x => decide (x ∈ excl)))) := by
  unfold typeCheckStep at h
  by_cases hc : penv.type_check_mode ≠ TypeCheckMode.None ∧
      is_type_checked st1.type_checked roots lib = false
  · rw [if_pos hc] at h
    cases hck : penv.check st1.graph roots lib
        (penv.reload_flag && !(roots.all (fun r => decide (r ∈ excl)))) with
    | error e => rw [hck] at h; simp at h; exact h.symm
    | ok _ => rw [hck] at h; simp at h; exact h.symm
  · rw [if_neg hc] at h
    exact absurd h (by simp)

/-- Claim C4: whenever `prepare_module_load` invokes the type checker, the
`reload` option it passes is true exactly when the explicit reload flag was
set and at least one root was not already present in the graph snapshot
taken before the build (the reload-exclusions set). -/
theorem type_checker_reload_condition (penv : PrepareEnv) (st : St)
    (roots : List String) (is_dynamic : Bool) (lib : TsTypeLib) (r : Bool)
    (h : (prepare_module_load penv st roots is_dynamic lib).checkerReload =
      some r) :
    r = true ↔
      (penv.reload_flag = true ∧
        ∃ root ∈ roots, root ∉ st.graph.specifiers) := by
  have hr : r = (penv.reload_flag &&
      !(roots.all (fun x => decide (x ∈ st.graph.specifiers)))) := by
    cases hb : penv.build_graph_with_npm_resolution st.graph roots is_dynamic
        with
    | error e =>
      rw [prepare_eq_of_build_error penv st roots is_dynamic lib e hb] at h
      simp at h
    | ok graph =>
      cases hv : penv.graph_valid_with_cli_options graph roots with
      | error e =>
        rw [prepare_eq_of_valid_error penv st roots is_dynamic lib graph e hb
          hv] at h
        simp at h
      | ok u =>
        cases u
        cases hl : lockfileStep penv graph with
        | exited =>
          rw [prepare_eq_of_lock_exited penv st roots is_dynamic lib graph hb
            hv hl] at h
          simp at h
        | error e =>
          rw [prepare_eq_of_lock_error penv st roots is_dynamic lib graph e hb
            hv hl] at h
          simp at h
        | ok =>
          rw [prepare_eq_typeCheckStep penv st roots is_dynamic lib graph hb hv
            hl] at h
          exact typeCheckStep_reload_eq penv _ roots lib _ r h
  subst hr
  simp only [Bool.and_eq_true, Bool.not_eq_true', List.all_eq_false,
    decide_eq_false_iff_not, decide_eq_true_eq]

/-- Witness for C4: a fresh root with the reload flag set yields
`reload = true`. -/
theorem type_checker_reload_condition_witness :
    ((prepare_module_load reloadPrepareEnv emptySt ["file:///main.ts"] false
        TsTypeLib.denoWindow).checkerReload = some true)
    ∧ (true = true ↔
        (reloadPrepareEnv.reload_flag = true ∧
          ∃ root ∈ ["file:///main.ts"], root ∉ emptySt.graph.specifiers)) :=
  ⟨by decide,
    type_checker_reload_condition reloadPrepareEnv emptySt ["file:///main.ts"]
      false TsTypeLib.denoWindow true (by decide)⟩

/-- Claim C5 is false as stated: loading a type-only declaration module
(`.d.ts`, media type `Dts`) does evict its `ParsedSourceCache` entry — the
eviction is not restricted to executable modules. -/
theorem declaration_load_evicts_cache_cex :
    stDts.parsed_source_cache = ["file:///a.d.ts"]
    ∧ (load_prepared_module baseEnv stDts "file:///a.d.ts" Option.none).1 =
        CodeLoadResult.ok ⟨"", "file:///a.d.ts", MediaType.Dts⟩
    ∧ (load_prepared_module baseEnv stDts "file:///a.d.ts"
        Option.none).2.parsed_source_cache = [] := by
  refine ⟨rfl, ?_, ?_⟩ <;> decide

/-- Claim C5 (amended): in the graph load path the `ParsedSourceCache` entry
is evicted after producing code for every successfully loaded ESM module
regardless of media type — declarations included — while JSON loads and
failed loads leave the cache untouched. -/
theorem parsed_source_eviction (env : Env) (st : St) (specifier : String)
    (mr : Option String) :
    (∀ m cs st2, st.graph.get specifier = some (Module.esm m) →
      load_prepared_module env st specifier mr = (CodeLoadResult.ok cs, st2) →
      st2.parsed_source_cache = cacheFree st.parsed_source_cache m.specifier)
    ∧ (∀ j, st.graph.get specifier = some (Module.json j) →
      (load_prepared_module env st specifier
        mr).2.parsed_source_cache = st.parsed_source_cache)
    ∧ (∀ e st2,
      load_prepared_module env st specifier mr = (CodeLoadResult.error e, st2) →
      st2.parsed_source_cache = st.parsed_source_cache) := by
  refine ⟨?_, ?_, ?_⟩
  · intro m cs st2 hget heq
    unfold load_prepared_module at heq
    split at heq
    · simp at heq
    · split at heq
      all_goals try split at heq
      all_goals try split at heq
      all_goals
        (simp_all <;>
          try exact (congrArg St.parsed_source_cache heq.2).symm)
  · intro j hget
    unfold load_prepared_module
    split
    · rfl
    · split <;> simp_all
  · intro e st2 heq
    unfold load_prepared_module at heq
    split at heq
    · simp at heq
    · split at heq
      all_goals try split at heq
      all_goals try split at heq
      all_goals simp_all

/-- Witness for the amended C5: a TypeScript module load evicts its cache
entry; a JSON module load leaves the cache unchanged. -/
theorem parsed_source_eviction_witness :
    ((load_prepared_module baseEnv stTsGraph "file:///m.ts"
        Option.none).2.parsed_source_cache =
      cacheFree stTsGraph.parsed_source_cache "file:///m.ts")
    ∧ ((load_prepared_module baseEnv stJsonMod "file:///a.json"
        Option.none).2.parsed_source_cache =
      stJsonMod.parsed_source_cache) := by
  constructor
  · exact (parsed_source_eviction baseEnv stTsGraph "file:///m.ts"
      Option.none).1
      ⟨"file:///m.ts", "const a = 1;", MediaType.TypeScript, []⟩
      ⟨"const a = 1; [emitted]", "file:///m.ts", MediaType.TypeScript⟩
      (load_prepared_module baseEnv stTsGraph "file:///m.ts" Option.none).2
      (by decide) (by decide)
  · exact (parsed_source_eviction baseEnv stJsonMod "file:///a.json"
      Option.none).2.1
      ⟨"file:///a.json", "1", MediaType.Json⟩ (by decide)

/-- `handle_node_resolve_result` only ever grows the `CjsResolutionStore`. -/
theorem cjs_mono_handle (env : Env) (st : St)
    (res : Except String (Option NodeResolution)) :
    st.cjs_resolutions ⊆
      (handle_node_resolve_result env st res).2.cjs_resolutions := by
  unfold handle_node_resolve_result
  rcases res with e | o
  · exact fun a ha => ha
  rcases o with _ | r
  · exact fun a ha => ha
  rcases r with u | u | n
  · exact fun a ha => ha
  · exact fun a ha => List.mem_cons_of_mem _ ha
  · exact fun a ha => ha

/-- The resolve tail only ever grows the `CjsResolutionStore`. -/
theorem cjs_mono_resolveTail (env : Env) (st : St)
    (specifier referrer : String) (p : PermissionsContainer)
    (rr : Except String String) :
    st.cjs_resolutions ⊆
      (resolveTail env st specifier referrer p rr).2.cjs_resolutions := by
  simp only [resolveTail]
  repeat' split
  all_goals
    first
      | exact fun a ha => ha
      | exact cjs_mono_handle env st _

/-- `resolve` only ever grows the `CjsResolutionStore`. -/
theorem cjs_mono_resolve (env : Env) (st : St) (specifier referrer : String)
    (kind : ResolutionKind) :
    st.cjs_resolutions ⊆
      (resolve env st specifier referrer kind).2.cjs_resolutions := by
  simp only [resolve]
  repeat' split
  all_goals
    first
      | exact fun a ha => ha
      | exact cjs_mono_handle env st _
      | exact cjs_mono_resolveTail env st specifier referrer _ _

/-- `load_prepared_module` never touches the `CjsResolutionStore`. -/
theorem cjs_unchanged_load_prepared (env : Env) (st : St) (specifier : String)
    (mr : Option String) :
    (load_prepared_module env st specifier mr).2.cjs_resolutions =
      st.cjs_resolutions := by
  unfold load_prepared_module
  repeat' split
  all_goals rfl

/-- `load_code_source` never touches the `CjsResolutionStore`. -/
theorem cjs_unchanged_load_code_source (env : Env) (st : St)
    (specifier : String) (mr : Option String) (d : Bool) :
    (load_code_source env st specifier mr d).2.cjs_resolutions =
      st.cjs_resolutions := by
  simp only [load_code_source]
  repeat' split
  all_goals
    first
      | rfl
      | exact cjs_unchanged_load_prepared env st specifier mr

/-- `load_sync` never touches the `CjsResolutionStore`. -/
theorem cjs_unchanged_load_sync (env : Env) (st : St) (specifier : String)
    (mr : Option String) (d : Bool) :
    (load_sync env st specifier mr d).2.cjs_resolutions =
      st.cjs_resolutions := by
  unfold load_sync
  split <;> rename_i heq <;>
    (have h := cjs_unchanged_load_code_source env st specifier mr d;
     rw [heq] at h; exact h)

/-- `prepare_module_load` never touches the `CjsResolutionStore`. -/
theorem cjs_unchanged_prepare (penv : PrepareEnv) (st : St)
    (roots : List String) (d : Bool) (lib : TsTypeLib) :
    (prepare_module_load penv st roots d lib).st.cjs_resolutions =
      st.cjs_resolutions := by
  cases hb : penv.build_graph_with_npm_resolution st.graph roots d with
  | error e => rw [prepare_eq_of_build_error penv st roots d lib e hb]
  | ok graph =>
    cases hv : penv.graph_valid_with_cli_options graph roots with
    | error e => rw [prepare_eq_of_valid_error penv st roots d lib graph e hb hv]
    | ok u =>
      cases u
      cases hl : lockfileStep penv graph with
      | exited =>
        rw [prepare_eq_of_lock_exited penv st roots d lib graph hb hv hl]
      | error e =>
        rw [prepare_eq_of_lock_error penv st roots d lib graph e hb hv hl]
      | ok =>
        rw [prepare_eq_typeCheckStep penv st roots d lib graph hb hv hl]
        unfold typeCheckStep
        split
        · split <;> rfl
        · rfl

/-- Claim C6: the `CjsResolutionStore` is monotonic — `resolve` only adds to
it, loads and prepares never remove from it — and membership is sticky for
loading: a specifier recorded as CommonJS is translated through the
CJS-to-ESM translator on every npm-realm load (never the plain ESM
node-globals injection, whose behaviour becomes irrelevant to the result). -/
theorem cjs_store_monotone_and_sticky (env : Env) (st : St)
    (specifier referrer : String) (kind : ResolutionKind)
    (maybe_referrer : Option String) (is_dynamic : Bool)
    (penv : PrepareEnv) (roots : List String) (d2 : Bool) (lib : TsTypeLib) :
    (st.cjs_resolutions ⊆
      (resolve env st specifier referrer kind).2.cjs_resolutions)
    ∧ ((load_sync env st specifier maybe_referrer
        is_dynamic).2.cjs_resolutions = st.cjs_resolutions)
    ∧ ((prepare_module_load penv st roots d2 lib).st.cjs_resolutions =
        st.cjs_resolutions)
    ∧ (specifier ∈ st.cjs_resolutions →
        (∀ code, npm_module_code env st specifier code is_dynamic =
          env.translate_cjs_to_esm specifier code MediaType.Cjs
            (if is_dynamic then env.dynamic_permissions
             else env.root_permissions))
        ∧ (env.nodeResolver.in_npm_package specifier = true →
          ∀ g, load_sync { env with esm_code_with_node_globals := g } st
              specifier maybe_referrer is_dynamic =
            load_sync env st specifier maybe_referrer is_dynamic)) := by
  refine ⟨cjs_mono_resolve env st specifier referrer kind,
    cjs_unchanged_load_sync env st specifier maybe_referrer is_dynamic,
    cjs_unchanged_prepare penv st roots d2 lib, ?_⟩
  intro hmem
  have hc : cjsContains st.cjs_resolutions specifier = true := by
    simp [cjsContains, hmem]
  constructor
  · intro code
    unfold npm_module_code
    rw [if_pos hc]
  · intro hnpm g
    simp only [load_sync, load_code_source, npm_module_code, hnpm, hc,
      if_true]

/-- Witness for C6: a CJS-marked specifier in an npm realm goes through the
CJS translator, and the ESM injector is irrelevant to the load result. -/
theorem cjs_store_monotone_and_sticky_witness :
    (npm_module_code envNpm stCjs "file:///node_modules/a/index.js"
        "module code" false =
      envNpm.translate_cjs_to_esm "file:///node_modules/a/index.js"
        "module code" MediaType.Cjs envNpm.root_permissions)
    ∧ (load_sync
        { envNpm with
          esm_code_with_node_globals := fun _ _ => Except.error "boom" }
        stCjs "file:///node_modules/a/index.js" Option.none false =
      load_sync envNpm stCjs "file:///node_modules/a/index.js" Option.none
        false) := by
  have h := (cjs_store_monotone_and_sticky envNpm stCjs
    "file:///node_modules/a/index.js" "" ResolutionKind.import Option.none
    false basePrepareEnv [] false TsTypeLib.denoWindow).2.2.2 (by decide)
  exact ⟨h.1 "module code", h.2 (by decide) _⟩

/-- Claim C7 is false as stated: a `node:`-scheme specifier that is outside
any npm realm and absent from the graph does not produce an error naming the
specifier — it hits the `unreachable!` panic of `load_prepared_module`. -/
theorem node_scheme_load_panics_cex :
    baseEnv.nodeResolver.in_npm_package "node:fs" = false
    ∧ emptySt.graph.get "node:fs" = Option.none
    ∧ (load_sync baseEnv emptySt "node:fs" Option.none false).1 =
        LoadResult.panicked "internal error: entered unreachable code" := by
  refine ⟨rfl, rfl, ?_⟩
  decide

/-- Claim C7 (amended): for every specifier outside any npm realm, absent
from the committed graph, and not carrying the internally-handled `node`
scheme, `load_sync` fails with the error naming the specifier — and naming
the referrer when one is supplied — leaving the state untouched. -/
theorem missing_module_load_error (env : Env) (st : St) (specifier : String)
    (mr : Option String) (d : Bool)
    (h1 : env.nodeResolver.in_npm_package specifier = false)
    (h2 : st.graph.get specifier = Option.none)
    (h3 : urlScheme specifier ≠ "node") :
    load_sync env st specifier mr d =
      (LoadResult.error
        ("Loading unprepared module: " ++ specifier ++
          (match mr with
           | some r => ", imported from: " ++ r
           | Option.none => "")), st) := by
  have hlp : load_prepared_module env st specifier mr =
      (CodeLoadResult.error
        ("Loading unprepared module: " ++ specifier ++
          (match mr with
           | some r => ", imported from: " ++ r
           | Option.none => "")), st) := by
    unfold load_prepared_module
    rw [if_neg (by simpa using h3), h2]
  unfold load_sync load_code_source
  rw [h1]
  simp only [Bool.false_eq_true, if_false, hlp]

/-- Witness for the amended C7: a missing module with a referrer. -/
theorem missing_module_load_error_witness :
    load_sync baseEnv emptySt "file:///missing.ts" (some "file:///main.ts")
        false =
      (LoadResult.error
        ("Loading unprepared module: " ++ "file:///missing.ts" ++
          (", imported from: " ++ "file:///main.ts")), emptySt) :=
  missing_module_load_error baseEnv emptySt "file:///missing.ts"
    (some "file:///main.ts") false (by decide) (by decide) (by decide)

/-- Claim C8: every successful `load_sync` packages exactly the code source
produced by the load path, with the code byte-identical when a debugger is
attached (`is_inspecting`) and source-map-stripped otherwise. -/
theorem source_map_gating (env : Env) (st : St) (specifier : String)
    (mr : Option String) (d : Bool) (ms : ModuleSource) (st2 : St)
    (h : load_sync env st specifier mr d = (LoadResult.ok ms, st2)) :
    ∃ cs, load_code_source env st specifier mr d = (CodeLoadResult.ok cs, st2)
      ∧ ms.code = (if env.is_inspecting then cs.code
          else env.code_without_source_map cs.code)
      ∧ (env.is_inspecting = true → ms.code = cs.code)
      ∧ (env.is_inspecting = false →
          ms.code = env.code_without_source_map cs.code) := by
  unfold load_sync at h
  split at h
  · simp at h
  · simp at h
  · rename_i cs st3 heq
    simp only [Prod.mk.injEq, LoadResult.ok.injEq] at h
    obtain ⟨hms, hst⟩ := h
    subst hst
    refine ⟨cs, heq, ?_, ?_, ?_⟩
    · rw [← hms]
    · intro hi
      rw [← hms, hi]
      simp
    · intro hi
      rw [← hms, hi]
      simp

/-- Witness for C8: with no debugger attached, a concrete npm-realm load
returns the stripped code of the produced code source. -/
theorem source_map_gating_witness :
    "module code [esm] [stripped]" =
      envNpm.code_without_source_map "module code [esm]" := by
  obtain ⟨cs, hcs, hcode, _, _⟩ := source_map_gating envNpm emptySt
    "file:///node_modules/p/index.js" Option.none false
    ⟨ModuleType.JavaScript, "module code [esm] [stripped]",
      "file:///node_modules/p/index.js", "file:///node_modules/p/index.js"⟩
    emptySt (by decide)
  have hv : load_code_source envNpm emptySt "file:///node_modules/p/index.js"
      Option.none false =
      (CodeLoadResult.ok
        ⟨"module code [esm]", "file:///node_modules/p/index.js",
          MediaType.JavaScript⟩, emptySt) := by decide
  have hcseq : cs =
      (⟨"module code [esm]", "file:///node_modules/p/index.js",
        MediaType.JavaScript⟩ : ModuleCodeSource) := by
    have h2 := hv.symm.trans hcs
    simp only [Prod.mk.injEq, CodeLoadResult.ok.injEq] at h2
    exact h2.1.symm
  rw [hcseq] at hcode
  simpa using hcode

/-- Claim C9: for a file identifier resolving to an ESM or JSON module of the
graph, `get_source_line` returns the literal source line for an in-range
zero-based line number, and a descriptive warning string (never a failure)
for an out-of-range one. -/
theorem source_line_lookup (env : Env) (st : St) (file_name : String)
    (line_number : Nat) (url : String) (m : Module) (src : String)
    (h1 : env.resolve_url file_name = some url)
    (h2 : st.graph.get url = some m)
    (h3 : moduleSource m = some src) :
    (∀ hlt : line_number < (sourceLines src).length,
      get_source_line env st file_name line_number =
        some ((sourceLines src).get ⟨line_number, hlt⟩))
    ∧ (line_number ≥ (sourceLines src).length →
      get_source_line env st file_name line_number =
        some (env.colors_yellow "Warning" ++
          " Couldn't format source line: Line " ++
          toString (line_number + 1) ++
          " is out of bounds (source may have changed at runtime)")) := by
  constructor
  · intro hlt
    unfold get_source_line
    rw [h1]
    simp only [h2, Option.some_bind, h3]
    rw [if_neg (not_le.mpr hlt)]
    rw [List.getD_eq_getElem _ _ hlt]
    rfl
  · intro hge
    unfold get_source_line
    rw [h1]
    simp only [h2, Option.some_bind, h3]
    rw [if_pos hge]

/-- Witness for C9 on a two-line source: line 1 is returned literally, line 2
is out of bounds and yields the warning string. -/
theorem source_line_lookup_witness :
    get_source_line baseEnv stSrcLines "file:///s.ts" 1 = some "l1"
    ∧ get_source_line baseEnv stSrcLines "file:///s.ts" 2 =
        some ("Warning" ++ " Couldn't format source line: Line " ++
          toString (2 + 1) ++
          " is out of bounds (source may have changed at runtime)") := by
  have h := source_line_lookup baseEnv stSrcLines "file:///s.ts" 1
    "file:///s.ts"
    (Module.esm ⟨"file:///s.ts", "l0\nl1", MediaType.TypeScript, []⟩)
    "l0\nl1" (by decide) (by decide) (by decide)
  have h2 := source_line_lookup baseEnv stSrcLines "file:///s.ts" 2
    "file:///s.ts"
    (Module.esm ⟨"file:///s.ts", "l0\nl1", MediaType.TypeScript, []⟩)
    "l0\nl1" (by decide) (by decide) (by decide)
  constructor
  · rw [h.1 (by decide)]
    decide
  · rw [h2.2 (by decide)]
    decide

/-- Claim C10: `prepare_load` on a specifier inside an npm realm succeeds
immediately without invoking the `ModuleLoadPreparer` and without touching
the state — no graph build, lockfile verification, or type checking
happens. -/
theorem npm_prepare_load_noop (env : Env) (penv : PrepareEnv) (st : St)
    (specifier : String) (d : Bool)
    (h : env.nodeResolver.in_npm_package specifier = true) :
    prepare_load env penv st specifier d =
      ⟨PrepareOutcome.ok, false, st⟩ := by
  unfold prepare_load
  rw [h]
  simp

/-- Witness for C10 at a concrete npm-realm specifier. -/
theorem npm_prepare_load_noop_witness :
    prepare_load envNpm basePrepareEnv emptySt "file:///node_modules/a.js"
        false = ⟨PrepareOutcome.ok, false, emptySt⟩ :=
  npm_prepare_load_noop envNpm basePrepareEnv emptySt
    "file:///node_modules/a.js" false (by decide)

end DenoLoader
